import Mathlib

/-!
Verification model of the resilient-email-service repository.

The JavaScript sources are shallowly embedded as Lean functions:
* strings are Lean `String`s, viewed as their lists of character codes where
  the code manipulates codes (`btoa`);
* JS timestamps (`Date.now()`) are `Nat` milliseconds, passed explicitly
  (time is modelled as one instant per call);
* backend invocations are resolved against an oracle
  `Nat → Except String String` giving the outcome (error message or
  messageId) of the n-th actual provider invocation;
* fallible JS code (`throw`) is modelled with `Except`.
-/

namespace ResilientEmail

/-- The character codes of a string (JS strings are sequences of code units;
all inputs of interest here are in the BMP, where `Char.toNat` agrees). -/
def strCodes (s : String) : List Nat := s.data.map Char.toNat

/-! ## btoa / base64 (used by `EmailService.generateEmailId`) -/

/-- Code of the base64 alphabet character for a 6-bit value. -/
def b64code (n : Nat) : Nat :=
  if n < 26 then 65 + n
  else if n < 52 then 97 + (n - 26)
  else if n < 62 then 48 + (n - 52)
  else if n = 62 then 43
  else 47

/-- Base64-encode a full 3-byte group into 4 alphabet codes. -/
def b64quad (a b c : Nat) : List Nat :=
  [ b64code (a / 4),
    b64code ((a % 4) * 16 + b / 16),
    b64code ((b % 16) * 4 + c / 64),
    b64code (c % 64) ]

/-- Base64 encoding of a byte list, with `=` (code 61) padding, as produced
by `btoa` on a Latin-1 string. -/
def b64encode : List Nat → List Nat
  | a :: b :: c :: rest => b64quad a b c ++ b64encode rest
  | [a, b] => [b64code (a / 4), b64code ((a % 4) * 16 + b / 16),
               b64code ((b % 16) * 4), 61]
  | [a] => [b64code (a / 4), b64code ((a % 4) * 16), 61, 61]
  | [] => []

/-- JS `btoa`: requires every character code to be in the Latin-1 range
(0..255); otherwise it throws `InvalidCharacterError` (modelled as `none`). -/
def btoa (codes : List Nat) : Option (List Nat) :=
  if codes.all (fun c => c < 256) then some (b64encode codes) else none

/-! ## Decimal rendering of a timestamp (JS number-to-string in a template
literal, for the integer values produced by `Date.now()`) -/

/-- Codes of the decimal digits of `n`, most significant first
(`fuel`-bounded worker; `fuel ≥ n` suffices). -/
def digitCodesCore : Nat → Nat → List Nat
  | 0, _ => []
  | fuel + 1, n =>
    if n < 10 then [48 + n]
    else digitCodesCore fuel (n / 10) ++ [48 + n % 10]

/-- Character codes of the usual decimal rendering of `n`. -/
def digitCodes (n : Nat) : List Nat := digitCodesCore (n + 1) n

/-! ## EmailService.generateEmailId -/

/-- The content string built by `generateEmailId`:
`` `${emailData.to}-${emailData.subject}-${Date.now()}` `` (code 45 is `-`). -/
def emailIdContent (toAddr subject : String) (now : Nat) : List Nat :=
  strCodes toAddr ++ [45] ++ strCodes subject ++ [45] ++ digitCodes now

/-- Model of `EmailService.generateEmailId`: `btoa(content).slice(0, 16)`;
`none` models the `btoa` throw on characters outside Latin-1. -/
def generateEmailId (toAddr subject : String) (now : Nat) : Option (List Nat) :=
  (btoa (emailIdContent toAddr subject now)).map (fun l => l.take 16)

/-! ## Facts about the id derivation -/

/-- Every code emitted by the decimal renderer is a digit code, in Latin-1. -/
theorem digitCodesCore_lt : ∀ fuel n : Nat, ∀ c ∈ digitCodesCore fuel n, c < 256 := by
  intro fuel
  induction fuel with
  | zero => intro n c hc; simp [digitCodesCore] at hc
  | succ f ih =>
    intro n c hc
    unfold digitCodesCore at hc
    by_cases h : n < 10
    · simp [h] at hc
      omega
    · simp [h] at hc
      rcases hc with h1 | h1
      · exact ih _ _ h1
      · have : n % 10 < 10 := Nat.mod_lt _ (by omega)
        omega

/-- The decimal rendering of a timestamp always passes the `btoa` range
check. -/
theorem digitCodes_all_valid (t : Nat) :
    (digitCodes t).all (fun c => c < 256) = true := by
  rw [List.all_eq_true]
  intro c hc
  simpa using digitCodesCore_lt (t + 1) t c hc

/-- The first `4*n` characters of a base64 encoding depend only on the first
`3*n` input bytes. -/
theorem b64encode_take (n : Nat) :
    ∀ l₁ l₂ : List Nat, l₁.take (3 * n) = l₂.take (3 * n) →
      (b64encode l₁).take (4 * n) = (b64encode l₂).take (4 * n) := by
  induction n with
  | zero => intro l₁ l₂ _; simp
  | succ n ih =>
    intro l₁ l₂ h
    rw [show 3 * (n + 1) = 3 * n + 1 + 1 + 1 by ring] at h
    match l₁, l₂, h with
    | [], [], _ => rfl
    | [], _ :: _, h => simp [List.take_succ_cons] at h
    | _ :: _, [], h => simp [List.take_succ_cons] at h
    | [a], [d], h =>
      simp only [List.take_succ_cons, List.take_nil, List.cons.injEq, and_true] at h
      rw [h]
    | [a], [d, e], h => simp [List.take_succ_cons] at h
    | [a, b], [d], h => simp [List.take_succ_cons] at h
    | [a], d :: e :: f :: r₂, h => simp [List.take_succ_cons] at h
    | a :: b :: c :: r₁, [d], h => simp [List.take_succ_cons] at h
    | [a, b], [d, e], h =>
      simp only [List.take_succ_cons, List.take_nil, List.cons.injEq, and_true] at h
      rw [h.1, h.2]
    | [a, b], d :: e :: f :: r₂, h => simp [List.take_succ_cons] at h
    | a :: b :: c :: r₁, [d, e], h => simp [List.take_succ_cons] at h
    | a :: b :: c :: r₁, d :: e :: f :: r₂, h =>
      simp only [List.take_succ_cons, List.cons.injEq] at h
      obtain ⟨rfl, rfl, rfl, h'⟩ := h
      rw [show b64encode (a :: b :: c :: r₁) = b64quad a b c ++ b64encode r₁ from rfl,
        show b64encode (a :: b :: c :: r₂) = b64quad a b c ++ b64encode r₂ from rfl,
        show 4 * (n + 1) = 4 * n + 1 + 1 + 1 + 1 by ring]
      simp only [b64quad, List.cons_append, List.nil_append, List.take_succ_cons]
      rw [ih r₁ r₂ h']

/-- The id content, regrouped as a fixed prefix followed by the timestamp
digits. -/
theorem emailIdContent_append (toAddr subject : String) (t : Nat) :
    emailIdContent toAddr subject t
      = (strCodes toAddr ++ [45] ++ strCodes subject ++ [45]) ++ digitCodes t := by
  simp [emailIdContent, List.append_assoc]

/-- C9, counterexample: with `to = "user@example.com"` and
`subject = "Hello"`, two submissions at distinct times 1000 and 2000 receive
the SAME derived identifier — `generateEmailId` truncates the base64 output
to 16 characters, i.e. to the first 12 bytes of the content, which here never
reach the timestamp. This refutes the claim that submissions at different
times receive distinct identifiers. -/
theorem generateEmailId_same_id_at_different_times :
    (1000 : Nat) ≠ 2000 ∧
      generateEmailId "user@example.com" "Hello" 1000
        = generateEmailId "user@example.com" "Hello" 2000 := by
  constructor
  · decide
  · decide

/-- C9 amended: the derived identifier is `btoa(to-subject-now)` truncated to
16 base64 characters, hence depends only on the first 12 character codes of
the content; whenever the prefix `to + "-" + subject + "-"` is at least 12
characters long, submissions at different times receive the SAME identifier
(the claimed time-dependence fails). -/
theorem generateEmailId_prefix_determined (toAddr subject : String) (t₁ t₂ : Nat)
    (h : 12 ≤ (strCodes toAddr).length + (strCodes subject).length + 2) :
    generateEmailId toAddr subject t₁ = generateEmailId toAddr subject t₂ := by
  unfold generateEmailId btoa
  have hv : (emailIdContent toAddr subject t₂).all (fun c => c < 256)
      = (emailIdContent toAddr subject t₁).all (fun c => c < 256) := by
    simp [emailIdContent, List.all_append, digitCodes_all_valid]
  rw [hv]
  by_cases hc : (emailIdContent toAddr subject t₁).all (fun c => c < 256) = true
  · rw [if_pos hc, if_pos hc]
    have hpre : 12 ≤ (strCodes toAddr ++ [45] ++ strCodes subject ++ [45]).length := by
      simp [List.length_append]
      omega
    have htake : (emailIdContent toAddr subject t₁).take 12
        = (emailIdContent toAddr subject t₂).take 12 := by
      rw [emailIdContent_append, emailIdContent_append,
        List.take_append_of_le_length hpre, List.take_append_of_le_length hpre]
    have := b64encode_take 4 (emailIdContent toAddr subject t₁)
      (emailIdContent toAddr subject t₂) (by simpa using htake)
    simpa using this
  · rw [if_neg hc, if_neg hc]

/-- Witness for the amended C9 theorem at a concrete long recipient. -/
theorem generateEmailId_prefix_determined_witness :
    12 ≤ (strCodes "user@example.com").length + (strCodes "Hello").length + 2 ∧
      generateEmailId "user@example.com" "Hello" 123456789
        = generateEmailId "user@example.com" "Hello" 987654321 :=
  ⟨by decide, generateEmailId_prefix_determined "user@example.com" "Hello"
    123456789 987654321 (by decide)⟩

/-! ## CircuitBreaker (src/utils/CircuitBreaker.js)

The `onStateChange` notification callback is observational only and is not
modelled. -/

/-- The breaker phase: `this.state` in the source. -/
inductive CBState where
  | CLOSED
  | OPEN
  | HALF_OPEN
deriving DecidableEq, Repr

/-- The mutable fields of a `CircuitBreaker` instance. `nextAttempt` and
`lastFailureTime` start as `null` (`none`). -/
structure CircuitBreaker where
  threshold : Nat
  timeout : Nat
  failureCount : Nat
  state : CBState
  nextAttempt : Option Nat
  lastFailureTime : Option Nat
deriving DecidableEq, Repr

/-- A fresh breaker, as built by the constructor (with resolved options). -/
def CircuitBreaker.fresh (threshold timeout : Nat) : CircuitBreaker :=
  ⟨threshold, timeout, 0, .CLOSED, none, none⟩

/-- Model of `CircuitBreaker.onSuccess`. -/
def CircuitBreaker.onSuccess (cb : CircuitBreaker) : CircuitBreaker :=
  if cb.state = .HALF_OPEN then
    { cb with state := .CLOSED, failureCount := 0 }
  else if cb.state = .CLOSED then
    { cb with failureCount := 0 }
  else cb

/-- Model of `CircuitBreaker.onFailure`: increment the count, record the time, and
open the circuit when the incremented count reaches the threshold
(`failureCount >= threshold` in the source). -/
def CircuitBreaker.onFailure (cb : CircuitBreaker) (now : Nat) : CircuitBreaker :=
  if cb.threshold ≤ cb.failureCount + 1 then
    { cb with failureCount := cb.failureCount + 1, lastFailureTime := some now,
              state := .OPEN, nextAttempt := some (now + cb.timeout) }
  else
    { cb with failureCount := cb.failureCount + 1, lastFailureTime := some now }

/-- Errors surfaced by `CircuitBreaker.call`: its own rejection, or the
wrapped operation's error propagated unchanged. -/
inductive CBErr where
  | circuitOpen
  | underlying (msg : String)
deriving DecidableEq, Repr

/-- The `.message` a caller of `CircuitBreaker.call` observes on failure. -/
def CBErr.message : CBErr → String
  | .circuitOpen => "Circuit breaker is OPEN"
  | .underlying msg => msg

/-- Result of one `CircuitBreaker.call`: the outcome, the breaker state after
the call, and whether the wrapped operation was actually invoked. -/
structure CBCallResult (α : Type) where
  result : Except CBErr α
  cb : CircuitBreaker
  invoked : Bool
deriving Repr

/-- Model of `CircuitBreaker.call(fn)`; the outcome of `fn` is supplied as data (`fn` is
only run when the source would run it, reported in `invoked`). In JS,
`Date.now() < this.nextAttempt` compares against `null` as 0 when
`nextAttempt` was never set. -/
def CircuitBreaker.call (cb : CircuitBreaker) (now : Nat)
    (fn : Except String α) : CBCallResult α :=
  if cb.state = .OPEN ∧ now < cb.nextAttempt.getD 0 then
    ⟨.error .circuitOpen, cb, false⟩
  else
    match fn with
    | .ok a =>
      ⟨.ok a,
       (if cb.state = .OPEN then { cb with state := .HALF_OPEN } else cb).onSuccess,
       true⟩
    | .error e =>
      ⟨.error (.underlying e),
       (if cb.state = .OPEN then { cb with state := .HALF_OPEN } else cb).onFailure now,
       true⟩

/-- Model of `CircuitBreaker.isOpen()`. -/
def CircuitBreaker.isOpen (cb : CircuitBreaker) (now : Nat) : Bool :=
  cb.state = .OPEN && now < cb.nextAttempt.getD 0

/-- Model of `CircuitBreaker.reset()`. -/
def CircuitBreaker.reset (cb : CircuitBreaker) : CircuitBreaker :=
  { cb with state := .CLOSED, failureCount := 0,
            nextAttempt := none, lastFailureTime := none }

/-- The breaker states reachable from a fresh instance through the public
interface: whole `call` invocations, the intra-call OPEN→HALF_OPEN
transition (the state in which the trial operation runs), and `reset`. -/
inductive CBReach : CircuitBreaker → Prop where
  | fresh (threshold timeout : Nat) : CBReach (CircuitBreaker.fresh threshold timeout)
  | call (cb : CircuitBreaker) (now : Nat) (fn : Except String String) :
      CBReach cb → CBReach ((cb.call now fn).cb)
  | halfOpen (cb : CircuitBreaker) (now : Nat) : CBReach cb →
      cb.state = .OPEN → ¬ now < cb.nextAttempt.getD 0 →
      CBReach { cb with state := .HALF_OPEN }
  | reset (cb : CircuitBreaker) : CBReach cb → CBReach cb.reset

/-- The reachable-state invariant: the breaker's failure count has already
reached the threshold whenever the phase is OPEN or HALF_OPEN. -/
def CBInv (cb : CircuitBreaker) : Prop :=
  (cb.state = .OPEN ∨ cb.state = .HALF_OPEN) → cb.threshold ≤ cb.failureCount

/-- The transition `onSuccess` preserves the invariant. -/
theorem CBInv.onSuccess {cb : CircuitBreaker} (h : CBInv cb) :
    CBInv cb.onSuccess := by
  unfold CBInv at h ⊢
  unfold CircuitBreaker.onSuccess
  split
  · intro hs; simp at hs
  · split
    · intro hs; simp_all
    · exact h

/-- The transition `onFailure` preserves the invariant. -/
theorem CBInv.onFailure {cb : CircuitBreaker} (now : Nat) (h : CBInv cb) :
    CBInv (cb.onFailure now) := by
  unfold CBInv at h ⊢
  unfold CircuitBreaker.onFailure
  split
  · intro _
    simpa using ‹cb.threshold ≤ cb.failureCount + 1›
  · intro hs
    simp only at hs
    have := h hs
    simp only
    omega

/-- The intra-call OPEN → HALF_OPEN transition preserves the invariant. -/
theorem CBInv.toHalfOpen {cb : CircuitBreaker} (h : CBInv cb)
    (hO : cb.state = .OPEN) : CBInv { cb with state := .HALF_OPEN } := by
  intro _
  exact h (Or.inl hO)

/-- A whole `call` preserves the invariant. -/
theorem CBInv.call {cb : CircuitBreaker} (now : Nat) (fn : Except String α)
    (h : CBInv cb) : CBInv (cb.call now fn).cb := by
  unfold CircuitBreaker.call
  split
  · exact h
  · have h1 : CBInv (if cb.state = .OPEN then { cb with state := .HALF_OPEN } else cb) := by
      split
      · exact h.toHalfOpen ‹_›
      · exact h
    cases fn with
    | ok a => exact h1.onSuccess
    | error e => exact h1.onFailure now

/-- Reachable-state invariant: a breaker is only OPEN or HALF_OPEN with
`failureCount` already at or above the threshold. -/
theorem CBReach.threshold_le_failureCount {cb : CircuitBreaker}
    (h : CBReach cb) : CBInv cb := by
  induction h with
  | fresh threshold timeout => intro hs; simp [CircuitBreaker.fresh] at hs
  | call cb now fn hr ih => exact ih.call now fn
  | halfOpen cb now hr hO hN ih => exact ih.toHalfOpen hO
  | reset cb hr ih => intro hs; simp [CircuitBreaker.reset] at hs

/-- C6: in every reachable breaker state with phase HALF_OPEN, a single
failed call immediately transitions the breaker back to OPEN with
`reopenAt = now + timeout` (reaching the failure threshold again is not
required; the reachable-state invariant guarantees `failureCount` is already
at or above the threshold), and the failure is propagated. -/
theorem halfOpen_failure_reopens (cb : CircuitBreaker) (now : Nat) (e : String)
    (hr : CBReach cb) (hs : cb.state = .HALF_OPEN) :
    (cb.call now (Except.error e : Except String String)).cb.state = .OPEN ∧
      (cb.call now (Except.error e : Except String String)).cb.nextAttempt = some (now + cb.timeout) ∧
      (cb.call now (Except.error e : Except String String)).result = .error (.underlying e) := by
  have hinv := hr.threshold_le_failureCount (Or.inr hs)
  have hth : cb.threshold ≤ cb.failureCount + 1 := by omega
  simp [CircuitBreaker.call, CircuitBreaker.onFailure, hs, hth]

/-- A concrete reachable HALF_OPEN breaker: threshold 1, one failure at time
0 opens the circuit with `reopenAt = 5`, and the call at time 5 moves it to
HALF_OPEN before invoking the trial operation. -/
def cbHalfOpenDemo : CircuitBreaker := ⟨1, 5, 1, .HALF_OPEN, some 5, some 0⟩

/-- The demo HALF_OPEN breaker is reachable. -/
theorem cbHalfOpenDemo_reach : CBReach cbHalfOpenDemo :=
  CBReach.halfOpen ((CircuitBreaker.fresh 1 5).call 0 (Except.error "x")).cb 5
    (CBReach.call (CircuitBreaker.fresh 1 5) 0 (Except.error "x")
      (CBReach.fresh 1 5))
    rfl (by decide)

/-- Witness for C6 at the concrete reachable HALF_OPEN breaker. -/
theorem halfOpen_failure_reopens_witness :
    cbHalfOpenDemo.state = CBState.HALF_OPEN ∧
      (cbHalfOpenDemo.call 7 (Except.error "y" : Except String String)).cb.state = CBState.OPEN ∧
      (cbHalfOpenDemo.call 7 (Except.error "y" : Except String String)).cb.nextAttempt = some 12 ∧
      (cbHalfOpenDemo.call 7 (Except.error "y" : Except String String)).result
        = Except.error (CBErr.underlying "y") :=
  ⟨rfl, by
    have h := halfOpen_failure_reopens cbHalfOpenDemo 7 "y" cbHalfOpenDemo_reach rfl
    exact ⟨h.1, h.2.1, h.2.2⟩⟩

/-- C7: while OPEN and `now < reopenAt`, `call` fails with the circuit-open
error, never invokes the operation, and leaves the breaker untouched; while
OPEN and `now ≥ reopenAt`, `call` invokes the operation on the HALF_OPEN
state, propagating an operation failure unchanged (and returning an
operation success unchanged). -/
theorem call_open_gating (cb : CircuitBreaker) (now : Nat)
    (fn : Except String String) (hO : cb.state = .OPEN) :
    (now < cb.nextAttempt.getD 0 →
      (cb.call now fn).result = .error .circuitOpen ∧
      (cb.call now fn).invoked = false ∧
      (cb.call now fn).cb = cb) ∧
    (¬ now < cb.nextAttempt.getD 0 →
      (cb.call now fn).invoked = true ∧
      (∀ e, fn = .error e →
        (cb.call now fn).result = .error (.underlying e) ∧
        (cb.call now fn).cb = CircuitBreaker.onFailure { cb with state := .HALF_OPEN } now) ∧
      (∀ a, fn = .ok a →
        (cb.call now fn).result = .ok a ∧
        (cb.call now fn).cb = CircuitBreaker.onSuccess { cb with state := .HALF_OPEN })) := by
  constructor
  · intro h
    simp [CircuitBreaker.call, hO, h]
  · intro h
    cases fn with
    | ok a => simp [CircuitBreaker.call, hO, h]
    | error e => simp [CircuitBreaker.call, hO, h]

/-- A concrete OPEN breaker with `reopenAt = 100`. -/
def cbOpenDemo : CircuitBreaker := ⟨5, 10, 5, .OPEN, some 100, some 90⟩

/-- Witness for C7: at time 50 the open breaker rejects without invoking; at
time 100 it invokes and propagates the operation's failure. -/
theorem call_open_gating_witness :
    (cbOpenDemo.call 50 (Except.error "boom" : Except String String)).result
        = Except.error CBErr.circuitOpen ∧
      (cbOpenDemo.call 50 (Except.error "boom" : Except String String)).invoked = false ∧
      (cbOpenDemo.call 50 (Except.error "boom" : Except String String)).cb = cbOpenDemo ∧
      (cbOpenDemo.call 100 (Except.error "boom" : Except String String)).invoked = true ∧
      (cbOpenDemo.call 100 (Except.error "boom" : Except String String)).result
        = Except.error (CBErr.underlying "boom") := by
  have h1 := (call_open_gating cbOpenDemo 50 (Except.error "boom" : Except String String) rfl).1 (by decide)
  have h2 := (call_open_gating cbOpenDemo 100 (Except.error "boom" : Except String String) rfl).2 (by decide)
  exact ⟨h1.1, h1.2.1, h1.2.2, h2.1, (h2.2.1 "boom" rfl).1⟩

/-! ## EmailQueue (src/utils/Emailqueue.js)

The queue buffer is a list of items carrying a priority; `seq` models the
enqueue order (the source tags each item with a monotone `Date.now()`
timestamp and a generated id; `reorderByPriority` breaks priority ties by
that timestamp). -/

/-- One buffered queue item. -/
structure QItem (α : Type) where
  emailData : α
  priority : Int
  seq : Nat
deriving DecidableEq, Repr

/-- The queue: the buffer plus the next enqueue-order stamp. -/
structure EmailQueue (α : Type) where
  queue : List (QItem α)
  nextSeq : Nat
deriving DecidableEq, Repr

/-- A fresh empty queue. -/
def EmailQueue.empty : EmailQueue α := ⟨[], 0⟩

/-- The insertion scan of `EmailQueue.add`: insert before the first buffered
item whose priority is strictly greater (`this.queue[i].priority > priority`),
else at the end. -/
def insertItem (item : QItem α) : List (QItem α) → List (QItem α)
  | [] => [item]
  | x :: xs => if item.priority < x.priority then item :: x :: xs
               else x :: insertItem item xs

/-- Model of `EmailQueue.add(emailData, priority)`. -/
def EmailQueue.add (q : EmailQueue α) (emailData : α) (priority : Int) :
    EmailQueue α :=
  ⟨insertItem ⟨emailData, priority, q.nextSeq⟩ q.queue, q.nextSeq + 1⟩

/-- Model of `EmailQueue.next()`: remove and return the head's payload. -/
def EmailQueue.next (q : EmailQueue α) : Option α × EmailQueue α :=
  match q.queue with
  | [] => (none, q)
  | x :: xs => (some x.emailData, ⟨xs, q.nextSeq⟩)

/-- Dequeue-before relation: strictly lower priority, or equal priority and
earlier insertion (the FIFO tie-break). -/
def qBefore (a b : QItem α) : Prop :=
  a.priority < b.priority ∨ (a.priority = b.priority ∧ a.seq < b.seq)

instance (a b : QItem α) : Decidable (qBefore a b) := by
  unfold qBefore
  infer_instance

/-- The queue invariant: the buffer is sorted by (priority, insertion order)
and every buffered stamp is older than the next one to be issued. -/
def QueueInv (q : EmailQueue α) : Prop :=
  q.queue.Pairwise qBefore ∧ ∀ it ∈ q.queue, it.seq < q.nextSeq

instance (q : EmailQueue α) : Decidable (QueueInv q) := by
  unfold QueueInv
  infer_instance

/-- Membership in the buffer after an insertion. -/
theorem mem_insertItem (item y : QItem α) :
    ∀ l : List (QItem α), y ∈ insertItem item l ↔ y = item ∨ y ∈ l := by
  intro l
  induction l with
  | nil => simp [insertItem]
  | cons x xs ih =>
    unfold insertItem
    split
    · simp only [List.mem_cons]
    · simp only [List.mem_cons, ih]
      tauto

/-- Inserting an item with a fresh (maximal) stamp keeps the buffer sorted
by (priority, insertion order). -/
theorem insertItem_pairwise (item : QItem α) :
    ∀ l : List (QItem α), l.Pairwise qBefore →
      (∀ x ∈ l, x.seq < item.seq) → (insertItem item l).Pairwise qBefore := by
  intro l
  induction l with
  | nil => intro _ _; simp [insertItem]
  | cons x xs ih =>
    intro hp hfresh
    rw [List.pairwise_cons] at hp
    unfold insertItem
    split
    · rename_i hlt
      rw [List.pairwise_cons]
      constructor
      · intro y hy
        rcases List.mem_cons.mp hy with rfl | hy
        · exact Or.inl hlt
        · rcases hp.1 y hy with h | h
          · exact Or.inl (lt_trans hlt h)
          · exact Or.inl (h.1 ▸ hlt)
      · rw [List.pairwise_cons]
        exact hp
    · rename_i hnlt
      rw [List.pairwise_cons]
      constructor
      · intro y hy
        rw [mem_insertItem] at hy
        rcases hy with rfl | hy
        · rcases lt_or_eq_of_le (not_lt.mp hnlt) with h | h
          · exact Or.inl h
          · exact Or.inr ⟨h, hfresh x (by simp)⟩
        · exact hp.1 y hy
      · exact ih hp.2 (fun z hz => hfresh z (by simp [hz]))

/-- C8: `add` preserves the sortedness-by-(priority, insertion-order)
invariant of the dispatch buffer, so successive `next()` calls return items
in ascending priority with FIFO order among equal priorities. -/
theorem EmailQueue.add_preserves_inv (q : EmailQueue α) (emailData : α)
    (priority : Int) (h : QueueInv q) : QueueInv (q.add emailData priority) := by
  obtain ⟨hsort, hfresh⟩ := h
  constructor
  · exact insertItem_pairwise _ _ hsort (fun x hx => hfresh x hx)
  · intro it hit
    rw [EmailQueue.add] at hit
    simp only at hit
    rw [mem_insertItem] at hit
    rcases hit with rfl | hit
    · simp [EmailQueue.add]
    · have := hfresh it hit
      simp [EmailQueue.add]
      omega

/-- Witness for C8: the invariant survives adding priorities 10, 1, 5, 1 in
turn to an empty queue (and the resulting buffer dequeues as 1, 1, 5, 10
with the two priority-1 items in insertion order). -/
theorem EmailQueue.add_preserves_inv_witness :
    QueueInv ((((EmailQueue.empty.add 100 10).add 200 1).add 300 5) : EmailQueue Nat) ∧
      QueueInv ((((EmailQueue.empty.add 100 10).add 200 1).add 300 5).add 400 1) :=
  ⟨by decide,
   EmailQueue.add_preserves_inv _ 400 1 (by decide)⟩

/-! ## RateLimiter (src/utils/RateLimiter.js) -/

/-- The sliding-window rate limiter state. -/
structure RateLimiter where
  limit : Nat
  windowMs : Nat
  requests : List Nat
deriving DecidableEq, Repr

/-- Model of `cleanupOldRequests(now)`: keep timestamps strictly newer than
`now - windowMs` (the subtraction is over JS numbers, hence over `Int`). -/
def RateLimiter.cleanup (rl : RateLimiter) (now : Nat) : RateLimiter :=
  { rl with requests :=
      rl.requests.filter (fun t => (now : Int) - (rl.windowMs : Int) < (t : Int)) }

/-- Model of `allowRequest()`: clean the window, then accept (push `now`,
return true) iff it holds fewer than `limit` entries. -/
def RateLimiter.allowRequest (rl : RateLimiter) (now : Nat) :
    Bool × RateLimiter :=
  let rl1 := rl.cleanup now
  if rl1.requests.length < rl1.limit then
    (true, { rl1 with requests := rl1.requests ++ [now] })
  else (false, rl1)

/-! ## EmailService (src/services/EmailService.js) -/

/-- A delivery request; `toAddr` is the source's `to` field. An absent `id`
(or the falsy empty string) makes the service derive one. -/
structure EmailData where
  id : Option String
  toAddr : String
  subject : String
  body : String
deriving DecidableEq, Repr

/-- One entry of a record's `attempts` array. -/
structure Attempt where
  provider : String
  attempt : Nat
  timestamp : Nat
  status : String
  error : Option String
deriving DecidableEq, Repr

/-- A status record as stored in `emailStatuses` and returned by
`sendEmail`; `Option` fields model JS fields that some record shapes
omit. -/
structure DeliveryRecord where
  success : Bool
  emailId : List Nat
  status : String
  message : Option String
  provider : Option String
  messageId : Option String
  attempts : Option (List Attempt)
  timestamp : Option Nat
deriving DecidableEq, Repr

/-- The payload of a successful `sendWithRetryAndFallback`. -/
structure SendSuccess where
  provider : String
  messageId : String
  message : String
deriving DecidableEq, Repr

/-- The mutable fields of an `EmailService` instance. The source constructs
exactly two providers, so the two breakers are explicit fields, indexed
modulo 2. -/
structure ServiceState where
  currentProviderIndex : Nat
  maxRetries : Nat
  initialRetryDelay : Nat
  maxRetryDelay : Nat
  breaker0 : CircuitBreaker
  breaker1 : CircuitBreaker
  rateLimiter : RateLimiter
  sentEmails : List (List Nat)
  emailStatuses : List (List Nat × DeliveryRecord)
deriving DecidableEq, Repr

/-- The provider names fixed by the constructor. -/
def providerName : Nat → String
  | 0 => "Provider1"
  | _ => "Provider2"

/-- Read `this.circuitBreakers[i]` (indices are always taken mod 2). -/
def ServiceState.getBreaker (svc : ServiceState) (i : Nat) : CircuitBreaker :=
  if i % 2 = 0 then svc.breaker0 else svc.breaker1

/-- Write `this.circuitBreakers[i]`. -/
def ServiceState.setBreaker (svc : ServiceState) (i : Nat)
    (cb : CircuitBreaker) : ServiceState :=
  if i % 2 = 0 then { svc with breaker0 := cb } else { svc with breaker1 := cb }

/-- Model of `Map.set`: replace an existing binding in place, else append. -/
def statusSet : List (List Nat × DeliveryRecord) → List Nat → DeliveryRecord →
    List (List Nat × DeliveryRecord)
  | [], k, v => [(k, v)]
  | (k', v') :: rest, k, v =>
    if k' = k then (k, v) :: rest else (k', v') :: statusSet rest k v

/-- Model of `Map.get`. -/
def statusGet (m : List (List Nat × DeliveryRecord)) (k : List Nat) :
    Option DeliveryRecord :=
  (m.find? (fun p => p.1 = k)).map (fun p => p.2)

/-- In-place mutation of the record stored under `k` (the source mutates the
object returned by `Map.get`; in every `sendEmail` flow the record exists). -/
def modifyStatus (m : List (List Nat × DeliveryRecord)) (k : List Nat)
    (f : DeliveryRecord → DeliveryRecord) : List (List Nat × DeliveryRecord) :=
  m.map (fun p => if p.1 = k then (p.1, f p.2) else p)

/-- Model of `currentStatus.attempts.push(a)`. -/
def pushAttempt (a : Attempt) (r : DeliveryRecord) : DeliveryRecord :=
  { r with attempts := some (r.attempts.getD [] ++ [a]) }

/-- Mutate the last element of a list (the source writes
`attempts[attempts.length - 1]`). -/
def modifyLast (f : α → α) : List α → List α
  | [] => []
  | [a] => [f a]
  | a :: rest => a :: modifyLast f rest

/-- Finalize the last attempt entry as a success (the source replaces the
last array element with the success `attemptInfo`, which has no error
field). -/
def finalizeSuccess (pname : String) (a now : Nat) (r : DeliveryRecord) :
    DeliveryRecord :=
  { r with
    attempts :=
      some (modifyLast (fun _ => ⟨pname, a, now, "success", none⟩)
        (r.attempts.getD [])) }

/-- Finalize the last attempt entry as failed, recording the error
message. -/
def finalizeFailed (msg : String) (r : DeliveryRecord) : DeliveryRecord :=
  { r with
    attempts :=
      some (modifyLast
        (fun att => { att with status := "failed", error := some msg })
        (r.attempts.getD [])) }

/-- Model of `EmailService.calculateRetryDelay(attempt)`:
`min(initialRetryDelay * 2^(attempt-1), maxRetryDelay)`. -/
def calculateRetryDelay (svc : ServiceState) (attempt : Nat) : Nat :=
  min (svc.initialRetryDelay * 2 ^ (attempt - 1)) svc.maxRetryDelay

/-- State threaded through the retry/fallback loops: the service state, the
count of actual provider invocations (the oracle cursor), the trace of
backoff sleeps, the last error message, and `providersAttempted`. -/
structure LoopState where
  svc : ServiceState
  counter : Nat
  sleeps : List Nat
  lastError : Option String
  providersAttempted : Nat
deriving Repr

/-- Outcome of a retry loop or of the whole provider loop. -/
inductive AttemptOutcome where
  | success (s : SendSuccess)
  | exhausted
deriving Repr

/-- The inner `for attempt = 1..maxRetries` loop of
`sendWithRetryAndFallback` on one provider: push an `attempting` entry,
invoke through the breaker, finalize the entry, and either return the
success, retry after recording the backoff sleep, or exhaust. The second
`Nat` is the remaining iteration count (`maxRetries - attempt + 1`). -/
def attemptLoop (emailId : List Nat) (pIdx : Nat) (now : Nat)
    (oracle : Nat → Except String String) :
    Nat → Nat → LoopState → AttemptOutcome × LoopState
  | _, 0, ls => (.exhausted, ls)
  | a, f + 1, ls =>
    let pname := providerName pIdx
    let es1 := modifyStatus ls.svc.emailStatuses emailId
      (pushAttempt ⟨pname, a, now, "attempting", none⟩)
    let svc1 := { ls.svc with emailStatuses := es1 }
    let cr := (svc1.getBreaker pIdx).call now (oracle ls.counter)
    let counter1 := if cr.invoked then ls.counter + 1 else ls.counter
    let svc2 := svc1.setBreaker pIdx cr.cb
    match cr.result with
    | .ok msgId =>
      let es2 := modifyStatus svc2.emailStatuses emailId
        (finalizeSuccess pname a now)
      let svc3 := { svc2 with emailStatuses := es2, currentProviderIndex := pIdx }
      (.success ⟨pname, msgId, "Email sent successfully via " ++ pname⟩,
       { ls with svc := svc3, counter := counter1 })
    | .error e =>
      let es2 := modifyStatus svc2.emailStatuses emailId
        (finalizeFailed e.message)
      let svc3 := { svc2 with emailStatuses := es2 }
      let ls1 := { ls with
        svc := svc3, counter := counter1, lastError := some e.message }
      if a < ls1.svc.maxRetries then
        attemptLoop emailId pIdx now oracle (a + 1) f
          { ls1 with sleeps := ls1.sleeps ++ [calculateRetryDelay ls1.svc a] }
      else (.exhausted, ls1)

/-- The outer provider loop of `sendWithRetryAndFallback`: iterate the two
providers starting at the sticky index, skipping a provider whose breaker
is open (recording a `skipped` entry), else running the retry loop. The
first `Nat` is the remaining provider count, the second the loop counter
`providerIndex`. -/
def providerLoop (emailId : List Nat) (now : Nat)
    (oracle : Nat → Except String String) :
    Nat → Nat → LoopState → AttemptOutcome × LoopState
  | 0, _, ls => (.exhausted, ls)
  | rem + 1, pi, ls =>
    let actualIdx := (ls.svc.currentProviderIndex + pi) % 2
    if (ls.svc.getBreaker actualIdx).isOpen now then
      let es1 := modifyStatus ls.svc.emailStatuses emailId
        (pushAttempt ⟨providerName actualIdx, 0, now, "skipped",
          some "Circuit breaker is open"⟩)
      let svc1 := { ls.svc with emailStatuses := es1 }
      providerLoop emailId now oracle rem (pi + 1) { ls with svc := svc1 }
    else
      let ls1 := { ls with providersAttempted := ls.providersAttempted + 1 }
      match attemptLoop emailId actualIdx now oracle 1 ls1.svc.maxRetries ls1 with
      | (.success s, ls2) => (.success s, ls2)
      | (.exhausted, ls2) => providerLoop emailId now oracle rem (pi + 1) ls2

/-- Model of `EmailService.sendWithRetryAndFallback`: run the provider loop over both
providers; on exhaustion throw (as data) the message distinguishing all
providers skipped from all providers failed. -/
def sendWithRetryAndFallback (svc : ServiceState) (emailId : List Nat)
    (now : Nat) (oracle : Nat → Except String String) :
    Except String SendSuccess × LoopState :=
  match providerLoop emailId now oracle 2 0 ⟨svc, 0, [], none, 0⟩ with
  | (.success s, ls) => (.ok s, ls)
  | (.exhausted, ls) =>
    if ls.providersAttempted = 0 then
      (.error "All providers are unavailable (circuit breakers open)", ls)
    else
      (.error ("All providers failed. Last error: "
        ++ ls.lastError.getD "Unknown error"), ls)

/-- The id resolution `emailData.id || this.generateEmailId(emailData)`: an
absent or empty (falsy) id triggers derivation, which throws (as data) on
characters outside Latin-1. -/
def resolveEmailId (ed : EmailData) (now : Nat) : Except String (List Nat) :=
  match ed.id with
  | some i =>
    if i = "" then
      match generateEmailId ed.toAddr ed.subject now with
      | some c => .ok c
      | none => .error "InvalidCharacterError"
    else .ok (strCodes i)
  | none =>
    match generateEmailId ed.toAddr ed.subject now with
    | some c => .ok c
    | none => .error "InvalidCharacterError"

/-- What one `sendEmail` call produces: the outcome (`.error` = the call
rejects/throws to its caller), the service state after the call, the backoff
sleeps performed, and how many provider invocations happened. -/
structure SendOutput where
  result : Except String DeliveryRecord
  svc : ServiceState
  sleeps : List Nat
  invocations : Nat
deriving Repr

/-- The `try/catch` tail of `sendEmail`: fold the pipeline outcome — success
or caught exception — into the stored and returned record. On success the id
is added to `sentEmails` (the success result's `success` field is the
literal `true`). -/
def finishSend (emailId : List Nat) (now : Nat)
    (p : Except String SendSuccess × LoopState) : SendOutput :=
  match p with
  | (.ok s, ls) =>
    let svc1 := { ls.svc with sentEmails := ls.svc.sentEmails ++ [emailId] }
    let finalStatus : DeliveryRecord :=
      { success := true, emailId := emailId, status := "sent",
        message := some s.message, provider := some s.provider,
        messageId := some s.messageId,
        attempts := (statusGet svc1.emailStatuses emailId).bind
          (fun r => r.attempts),
        timestamp := some now }
    ⟨.ok finalStatus,
     { svc1 with emailStatuses := statusSet svc1.emailStatuses emailId finalStatus },
     ls.sleeps, ls.counter⟩
  | (.error msg, ls) =>
    let errorStatus : DeliveryRecord :=
      { success := false, emailId := emailId, status := "failed",
        message := some msg, provider := none, messageId := none,
        attempts := (statusGet ls.svc.emailStatuses emailId).bind
          (fun r => r.attempts),
        timestamp := some now }
    ⟨.ok errorStatus,
     { ls.svc with emailStatuses := statusSet ls.svc.emailStatuses emailId errorStatus },
     ls.sleeps, ls.counter⟩

/-- Model of `EmailService.sendEmail(emailData)`. A `none` argument models calling
with `null`/`undefined`, on which the property access `emailData.id` throws
before anything else happens. -/
def sendEmail (svc : ServiceState) (emailData : Option EmailData) (now : Nat)
    (oracle : Nat → Except String String) : SendOutput :=
  match emailData with
  | none =>
    ⟨.error "TypeError: Cannot read properties of null", svc, [], 0⟩
  | some ed =>
    match resolveEmailId ed now with
    | .error e => ⟨.error e, svc, [], 0⟩
    | .ok emailId =>
      if emailId ∈ svc.sentEmails then
        ⟨.ok { success := true, emailId := emailId, status := "already_sent",
               message := some "Email already sent (idempotency check)",
               provider := none, messageId := none,
               attempts := none, timestamp := none },
         svc, [], 0⟩
      else
        let ar := svc.rateLimiter.allowRequest now
        let svc1 := { svc with rateLimiter := ar.2 }
        if ar.1 = false then
          let st : DeliveryRecord :=
            { success := false, emailId := emailId, status := "rate_limited",
              message := some "Rate limit exceeded", provider := none,
              messageId := none, attempts := none, timestamp := some now }
          ⟨.ok st,
           { svc1 with emailStatuses := statusSet svc1.emailStatuses emailId st },
           [], 0⟩
        else
          let initialStatus : DeliveryRecord :=
            { success := false, emailId := emailId, status := "processing",
              message := none, provider := none, messageId := none,
              attempts := some [], timestamp := some now }
          let svc2 := { svc1 with
            emailStatuses := statusSet svc1.emailStatuses emailId initialStatus }
          finishSend emailId now (sendWithRetryAndFallback svc2 emailId now oracle)

/-- A fresh service, as built by the constructor with resolved options; the
two providers, their breakers (threshold 5, timeout 60000) and the rate
limiter (100 per 60000 ms) are hardcoded there. -/
def ServiceState.fresh (maxRetries initialRetryDelay maxRetryDelay : Nat) :
    ServiceState :=
  { currentProviderIndex := 0,
    maxRetries := maxRetries,
    initialRetryDelay := initialRetryDelay,
    maxRetryDelay := maxRetryDelay,
    breaker0 := CircuitBreaker.fresh 5 60000,
    breaker1 := CircuitBreaker.fresh 5 60000,
    rateLimiter := ⟨100, 60000, []⟩,
    sentEmails := [],
    emailStatuses := [] }

/-! ## Theorems about the send pipeline -/

/-- The `try/catch` tail always produces a record, never an exception. -/
theorem finishSend_isOk (emailId : List Nat) (now : Nat)
    (p : Except String SendSuccess × LoopState) :
    (finishSend emailId now p).result.isOk = true := by
  obtain ⟨res, ls⟩ := p
  cases res with
  | ok s => rfl
  | error msg => rfl

/-- C1: once an id is in the idempotency set, a subsequent `sendEmail` with
that id returns the already_sent / success = true record, performs no
provider invocation and no sleep, and leaves the entire service state —
including the status map, so no new attempt entries — unchanged. -/
theorem sendEmail_already_sent (svc : ServiceState) (ed : EmailData)
    (now : Nat) (oracle : Nat → Except String String) (emailId : List Nat)
    (hid : resolveEmailId ed now = .ok emailId)
    (hmem : emailId ∈ svc.sentEmails) :
    (sendEmail svc (some ed) now oracle).result
        = .ok { success := true, emailId := emailId, status := "already_sent",
                message := some "Email already sent (idempotency check)",
                provider := none, messageId := none,
                attempts := none, timestamp := none } ∧
      (sendEmail svc (some ed) now oracle).svc = svc ∧
      (sendEmail svc (some ed) now oracle).invocations = 0 ∧
      (sendEmail svc (some ed) now oracle).sleeps = [] := by
  simp [sendEmail, hid, hmem]

/-- A demo request with an explicit id. -/
def edDemo : EmailData := ⟨some "mail1", "a@b.co", "s", "b"⟩

/-- A fresh demo service that has already sent `"mail1"`. -/
def svcSentDemo : ServiceState :=
  { ServiceState.fresh 3 1000 30000 with sentEmails := [strCodes "mail1"] }

/-- Witness for C1 at a concrete service that already sent the id. -/
theorem sendEmail_already_sent_witness :
    (sendEmail svcSentDemo (some edDemo) 50 (fun _ => Except.error "e")).result
        = .ok { success := true, emailId := strCodes "mail1",
                status := "already_sent",
                message := some "Email already sent (idempotency check)",
                provider := none, messageId := none,
                attempts := none, timestamp := none } ∧
      (sendEmail svcSentDemo (some edDemo) 50 (fun _ => Except.error "e")).svc
        = svcSentDemo ∧
      (sendEmail svcSentDemo (some edDemo) 50 (fun _ => Except.error "e")).invocations = 0 ∧
      (sendEmail svcSentDemo (some edDemo) 50 (fun _ => Except.error "e")).sleeps = [] :=
  sendEmail_already_sent svcSentDemo edDemo 50 (fun _ => Except.error "e")
    (strCodes "mail1") rfl (by decide)

/-- C3: for a non-duplicate id, when the rate limiter denies, `sendEmail`
stores and returns the rate_limited / success = false record with no
attempts field; no provider is invoked, no sleep happens, and the breakers,
sticky index, and idempotency set are untouched (only the rate-limiter
window and the status map change), so the rate-limit check strictly precedes
backend selection. -/
theorem sendEmail_rate_limited (svc : ServiceState) (ed : EmailData)
    (now : Nat) (oracle : Nat → Except String String) (emailId : List Nat)
    (hid : resolveEmailId ed now = .ok emailId)
    (hmem : emailId ∉ svc.sentEmails)
    (hrl : (svc.rateLimiter.allowRequest now).1 = false) :
    (sendEmail svc (some ed) now oracle).result
        = .ok { success := false, emailId := emailId, status := "rate_limited",
                message := some "Rate limit exceeded", provider := none,
                messageId := none, attempts := none, timestamp := some now } ∧
      (sendEmail svc (some ed) now oracle).svc
        = { svc with
            rateLimiter := (svc.rateLimiter.allowRequest now).2,
            emailStatuses := statusSet svc.emailStatuses emailId
              { success := false, emailId := emailId, status := "rate_limited",
                message := some "Rate limit exceeded", provider := none,
                messageId := none, attempts := none, timestamp := some now } } ∧
      (sendEmail svc (some ed) now oracle).invocations = 0 ∧
      (sendEmail svc (some ed) now oracle).sleeps = [] := by
  simp [sendEmail, hid, hmem, hrl]

/-- A fresh demo service whose rate limiter has limit 0 (always deny). -/
def svcLimitZeroDemo : ServiceState :=
  { ServiceState.fresh 3 1000 30000 with rateLimiter := ⟨0, 60000, []⟩ }

/-- Witness for C3 at a concrete always-deny service. -/
theorem sendEmail_rate_limited_witness :
    (sendEmail svcLimitZeroDemo (some edDemo) 50 (fun _ => Except.error "e")).result
        = .ok { success := false, emailId := strCodes "mail1",
                status := "rate_limited",
                message := some "Rate limit exceeded", provider := none,
                messageId := none, attempts := none, timestamp := some 50 } ∧
      (sendEmail svcLimitZeroDemo (some edDemo) 50 (fun _ => Except.error "e")).svc
        = { svcLimitZeroDemo with
            rateLimiter := (svcLimitZeroDemo.rateLimiter.allowRequest 50).2,
            emailStatuses := statusSet svcLimitZeroDemo.emailStatuses (strCodes "mail1")
              { success := false, emailId := strCodes "mail1",
                status := "rate_limited",
                message := some "Rate limit exceeded", provider := none,
                messageId := none, attempts := none, timestamp := some 50 } } ∧
      (sendEmail svcLimitZeroDemo (some edDemo) 50 (fun _ => Except.error "e")).invocations = 0 ∧
      (sendEmail svcLimitZeroDemo (some edDemo) 50 (fun _ => Except.error "e")).sleeps = [] :=
  sendEmail_rate_limited svcLimitZeroDemo edDemo 50 (fun _ => Except.error "e")
    (strCodes "mail1") rfl (by decide) (by decide)

/-- C2, counterexample: `sendEmail` DOES raise to its caller on a null
request (the `emailData.id` access throws before the `try` block) and on a
request without an id whose `to` field contains characters outside Latin-1
(the `btoa` inside `generateEmailId` throws before the `try` block). -/
theorem sendEmail_raises_on_null_or_nonlatin1 :
    (sendEmail (ServiceState.fresh 3 1000 30000) none 50
        (fun _ => Except.error "e")).result
      = Except.error "TypeError: Cannot read properties of null" ∧
      (sendEmail (ServiceState.fresh 3 1000 30000)
          (some ⟨none, "你好@example.com", "Hi", "b"⟩) 50
          (fun _ => Except.error "e")).result
        = Except.error "InvalidCharacterError" :=
  ⟨rfl, by rfl⟩

/-- C2 amended: whenever the id resolution step succeeds (non-null request,
and if the id is derived, `btoa` accepts the content), `sendEmail` never
raises: every outcome — backend errors, circuit-open rejections, rate
limiting, internal pipeline failures — is captured in the returned
DeliveryRecord. -/
theorem sendEmail_never_raises_after_id (svc : ServiceState) (ed : EmailData)
    (now : Nat) (oracle : Nat → Except String String) (emailId : List Nat)
    (hid : resolveEmailId ed now = .ok emailId) :
    (sendEmail svc (some ed) now oracle).result.isOk = true := by
  simp only [sendEmail, hid]
  by_cases hmem : emailId ∈ svc.sentEmails
  · simp [hmem, Except.isOk, Except.toBool]
  · simp only [hmem, if_false, iff_false]
    by_cases hrl : (svc.rateLimiter.allowRequest now).1 = false
    · simp [hrl, Except.isOk, Except.toBool]
    · simp only [hrl, if_false]
      simp [finishSend_isOk, hmem]

/-- C4: a fresh service with `maxRetries = 2` whose two backends fail on
every attempt returns a failed / success = false record with exactly 4
attempt entries (2 backends × 2 retries), each marked failed. -/
theorem sendEmail_all_backends_fail_four_attempts
    (d1 d2 now : Nat) (toA subj body idStr : String)
    (oracle : Nat → Except String String) (errs : Nat → String)
    (hor : ∀ n, oracle n = Except.error (errs n)) (hid : ¬ idStr = "") :
    (sendEmail (ServiceState.fresh 2 d1 d2)
        (some ⟨some idStr, toA, subj, body⟩) now oracle).result
      = Except.ok
        { success := false, emailId := strCodes idStr, status := "failed",
          message := some ("All providers failed. Last error: " ++ errs 3),
          provider := none, messageId := none,
          attempts := some
            [⟨"Provider1", 1, now, "failed", some (errs 0)⟩,
             ⟨"Provider1", 2, now, "failed", some (errs 1)⟩,
             ⟨"Provider2", 1, now, "failed", some (errs 2)⟩,
             ⟨"Provider2", 2, now, "failed", some (errs 3)⟩],
          timestamp := some now } := by
  simp [sendEmail, resolveEmailId, hid, ServiceState.fresh, CircuitBreaker.fresh,
    RateLimiter.allowRequest, RateLimiter.cleanup,
    sendWithRetryAndFallback, providerLoop, attemptLoop, finishSend,
    CircuitBreaker.call, CircuitBreaker.onFailure, CircuitBreaker.isOpen,
    ServiceState.getBreaker, ServiceState.setBreaker,
    statusSet, statusGet, modifyStatus, pushAttempt, finalizeFailed, modifyLast,
    calculateRetryDelay, providerName, List.find?, CBErr.message, hor]

/-- Witness for C4 at fully concrete inputs. -/
theorem sendEmail_all_backends_fail_four_attempts_witness :
    (sendEmail (ServiceState.fresh 2 1000 30000) (some edDemo) 50
        (fun _ => Except.error "boom")).result
      = Except.ok
        { success := false, emailId := strCodes "mail1", status := "failed",
          message := some "All providers failed. Last error: boom",
          provider := none, messageId := none,
          attempts := some
            [⟨"Provider1", 1, 50, "failed", some "boom"⟩,
             ⟨"Provider1", 2, 50, "failed", some "boom"⟩,
             ⟨"Provider2", 1, 50, "failed", some "boom"⟩,
             ⟨"Provider2", 2, 50, "failed", some "boom"⟩],
          timestamp := some 50 } :=
  sendEmail_all_backends_fail_four_attempts 1000 30000 50 "a@b.co" "s" "b"
    "mail1" (fun _ => Except.error "boom") (fun _ => "boom")
    (fun _ => rfl) (by decide)

/-- Witness for the amended C2 at a concrete fresh service and failing
backends. -/
theorem sendEmail_never_raises_after_id_witness :
    (sendEmail (ServiceState.fresh 2 1000 30000) (some edDemo) 50
        (fun _ => Except.error "boom")).result.isOk = true :=
  sendEmail_never_raises_after_id (ServiceState.fresh 2 1000 30000) edDemo 50
    (fun _ => Except.error "boom") (strCodes "mail1") rfl

/-! ## Backoff sleeps (C5) -/

/-- Updating a breaker leaves the retry configuration untouched. -/
@[simp] theorem setBreaker_maxRetries (svc : ServiceState) (i : Nat)
    (cb : CircuitBreaker) :
    (svc.setBreaker i cb).maxRetries = svc.maxRetries := by
  unfold ServiceState.setBreaker
  split <;> rfl

/-- Updating a breaker leaves the initial retry delay untouched. -/
@[simp] theorem setBreaker_initialRetryDelay (svc : ServiceState) (i : Nat)
    (cb : CircuitBreaker) :
    (svc.setBreaker i cb).initialRetryDelay = svc.initialRetryDelay := by
  unfold ServiceState.setBreaker
  split <;> rfl

/-- Updating a breaker leaves the maximal retry delay untouched. -/
@[simp] theorem setBreaker_maxRetryDelay (svc : ServiceState) (i : Nat)
    (cb : CircuitBreaker) :
    (svc.setBreaker i cb).maxRetryDelay = svc.maxRetryDelay := by
  unfold ServiceState.setBreaker
  split <;> rfl

/-- A breaker call on a failing operation always reports a failure — the
circuit-open rejection or the propagated operation error. -/
theorem call_error_result (cb : CircuitBreaker) (now : Nat) (e : String) :
    (cb.call now (Except.error e : Except String String)).result
      = .error (if cb.state = .OPEN ∧ now < cb.nextAttempt.getD 0
                then CBErr.circuitOpen else CBErr.underlying e) := by
  unfold CircuitBreaker.call
  split
  · simp
  · simp

/-- With every attempt failing, the retry loop started at attempt `a` with
`f` remaining iterations records exactly the backoff sleeps
`min(initialRetryDelay * 2^(j-1), maxRetryDelay)` for `j = a, a+1, ...` up
to `maxRetries - 1`. -/
theorem attemptLoop_sleeps_all_fail (emailId : List Nat) (pIdx now : Nat)
    (oracle : Nat → Except String String) (errs : Nat → String)
    (hor : ∀ n, oracle n = Except.error (errs n)) :
    ∀ (f a : Nat) (ls : LoopState), a + f = ls.svc.maxRetries + 1 →
      ((attemptLoop emailId pIdx now oracle a f ls).2).sleeps
        = ls.sleeps ++ (List.range (f - 1)).map
            (fun i => min (ls.svc.initialRetryDelay * 2 ^ (a + i - 1))
              ls.svc.maxRetryDelay) := by
  intro f
  induction f with
  | zero => intro a ls h; simp [attemptLoop]
  | succ f ih =>
    intro a ls h
    unfold attemptLoop
    dsimp only
    rw [hor]
    rw [call_error_result]
    dsimp only
    simp only [setBreaker_maxRetries, setBreaker_initialRetryDelay,
      setBreaker_maxRetryDelay, calculateRetryDelay]
    by_cases hlt : a < ls.svc.maxRetries
    · rw [if_pos hlt]
      rw [ih (a + 1) _ (by simp; omega)]
      simp only [setBreaker_maxRetries, setBreaker_initialRetryDelay,
        setBreaker_maxRetryDelay]
      rw [List.append_assoc]
      congr 1
      obtain ⟨g, rfl⟩ : ∃ g, f = g + 1 := ⟨f - 1, by omega⟩
      simp only [Nat.add_sub_cancel]
      rw [List.range_succ_eq_map]
      simp only [List.map_cons, List.map_map, Nat.add_zero, List.singleton_append]
      congr 1
      apply List.map_congr_left
      intro i _
      have hx : a + (i + 1) - 1 = a + 1 + i - 1 := by omega
      simp [Function.comp, Nat.succ_eq_add_one, hx]
    · rw [if_neg hlt]
      have hf : f = 0 := by omega
      subst hf
      simp

/-- C5: on a backend whose attempts all fail, the delay slept between failed
attempt `k` and attempt `k+1` (1 ≤ k < maxRetries) — the `(k-1)`-th entry of
the sleep trace of the retry loop as started by `sendWithRetryAndFallback` —
equals `min(initialRetryDelay * 2^(k-1), maxRetryDelay)`. -/
theorem backoff_sleep_formula (svc : ServiceState) (emailId : List Nat)
    (pIdx now : Nat) (oracle : Nat → Except String String) (errs : Nat → String)
    (hor : ∀ n, oracle n = Except.error (errs n)) (k : Nat)
    (h1 : 1 ≤ k) (h2 : k < svc.maxRetries) :
    ((attemptLoop emailId pIdx now oracle 1 svc.maxRetries
        ⟨svc, 0, [], none, 0⟩).2).sleeps[k - 1]?
      = some (min (svc.initialRetryDelay * 2 ^ (k - 1)) svc.maxRetryDelay) := by
  rw [attemptLoop_sleeps_all_fail emailId pIdx now oracle errs hor
    svc.maxRetries 1 ⟨svc, 0, [], none, 0⟩ (by dsimp only; omega)]
  dsimp only
  simp only [List.nil_append, List.getElem?_map]
  rw [List.getElem?_range (by omega)]
  have hx : 1 + (k - 1) - 1 = k - 1 := by omega
  simp [hx]

/-- Witness for C5: with `initialRetryDelay = 1000`, `maxRetries = 2`, the
sleep between attempts 1 and 2 is 1000 ms. -/
theorem backoff_sleep_formula_witness :
    ((attemptLoop (strCodes "mail1") 0 50 (fun _ => Except.error "boom") 1
        (ServiceState.fresh 2 1000 30000).maxRetries
        ⟨ServiceState.fresh 2 1000 30000, 0, [], none, 0⟩).2).sleeps[0]?
      = some 1000 := by
  have h := backoff_sleep_formula (ServiceState.fresh 2 1000 30000)
    (strCodes "mail1") 0 50 (fun _ => Except.error "boom") (fun _ => "boom")
    (fun _ => rfl) 1 (by decide) (by decide)
  simpa using h

/-! ## Frame of a duplicate send (C10) -/

/-- The rate_limited record `sendEmail` returns from the always-deny demo
service. -/
def rateLimitedReplyDemo : DeliveryRecord :=
  { success := false, emailId := strCodes "mail1", status := "rate_limited",
    message := some "Rate limit exceeded", provider := none,
    messageId := none, attempts := none, timestamp := some 50 }

/-- C10, counterexample: the rate_limited record returned by `sendEmail` is
a record other than already_sent that ALSO carries no attempts sequence, so
the already_sent record is not "unlike every other returned DeliveryRecord"
in lacking an attempts field. -/
theorem rate_limited_reply_also_lacks_attempts :
    (sendEmail svcLimitZeroDemo (some edDemo) 50
        (fun _ => Except.error "e")).result = Except.ok rateLimitedReplyDemo ∧
      rateLimitedReplyDemo.status ≠ "already_sent" ∧
      rateLimitedReplyDemo.attempts = none := by
  refine ⟨rfl, by decide, rfl⟩

/-- Any record produced by the `try/catch` tail carries the final-update
timestamp. -/
theorem finishSend_timestamp (emailId : List Nat) (now : Nat)
    (p : Except String SendSuccess × LoopState) (r : DeliveryRecord)
    (h : (finishSend emailId now p).result = .ok r) : r.timestamp = some now := by
  obtain ⟨res, ls⟩ := p
  cases res with
  | ok s =>
    simp only [finishSend] at h
    injection h with h2
    rw [← h2]
  | error msg =>
    simp only [finishSend] at h
    injection h with h2
    rw [← h2]

/-- C10 amended: a duplicate send (id already in the idempotency set) leaves
every shared structure unchanged — the whole service state (rate-limiter
window, status map, breakers, sticky provider index, idempotency set) is
returned intact, with no provider invocation and no sleep — and the
already_sent record it returns carries no attempts sequence and no
timestamp field. It is the only returned record without a timestamp; the
rate_limited record, however, likewise carries no attempts sequence. -/
theorem sendEmail_duplicate_frame (svc : ServiceState) (ed : EmailData)
    (now : Nat) (oracle : Nat → Except String String) (emailId : List Nat)
    (hid : resolveEmailId ed now = .ok emailId) :
    (emailId ∈ svc.sentEmails →
      (sendEmail svc (some ed) now oracle).svc = svc ∧
      (sendEmail svc (some ed) now oracle).invocations = 0 ∧
      (sendEmail svc (some ed) now oracle).sleeps = [] ∧
      ∀ r, (sendEmail svc (some ed) now oracle).result = .ok r →
        r.attempts = none ∧ r.timestamp = none) ∧
    (∀ r, (sendEmail svc (some ed) now oracle).result = .ok r →
      r.status ≠ "already_sent" → r.timestamp = some now) := by
  constructor
  · intro hmem
    refine ⟨?_, ?_, ?_, ?_⟩
    · simp [sendEmail, hid, hmem]
    · simp [sendEmail, hid, hmem]
    · simp [sendEmail, hid, hmem]
    · intro r hr
      simp [sendEmail, hid, hmem] at hr
      rw [← hr]
      exact ⟨rfl, rfl⟩
  · intro r hr hstatus
    by_cases hmem : emailId ∈ svc.sentEmails
    · simp [sendEmail, hid, hmem] at hr
      rw [← hr] at hstatus
      simp at hstatus
    · simp only [sendEmail, hid] at hr
      rw [if_neg hmem] at hr
      by_cases hrl : (svc.rateLimiter.allowRequest now).1 = false
      · simp only [hrl, if_true, if_pos rfl] at hr
        simp at hr
        rw [← hr]
      · simp only [hrl, if_false] at hr
        exact finishSend_timestamp _ now _ r (by simpa using hr)

/-- Witness for the amended C10 at the concrete duplicate-send demo. -/
theorem sendEmail_duplicate_frame_witness :
    (sendEmail svcSentDemo (some edDemo) 50 (fun _ => Except.error "e")).svc
        = svcSentDemo ∧
      (sendEmail svcSentDemo (some edDemo) 50 (fun _ => Except.error "e")).invocations = 0 ∧
      (sendEmail svcSentDemo (some edDemo) 50 (fun _ => Except.error "e")).sleeps = [] := by
  have h := sendEmail_duplicate_frame svcSentDemo edDemo 50
    (fun _ => Except.error "e") (strCodes "mail1") rfl
  have h1 := h.1 (by decide)
  exact ⟨h1.1, h1.2.1, h1.2.2.1⟩

end ResilientEmail
